import Mathlib

/-!
Verification of the popcorn-track local persistence layer.

This file shallowly embeds the SQLite-backed persistence core of the
repository (the `database` module with `executeQuery` / `executeNonQuery` /
`saveDatabase`, and the `storage` facade built on top of it) together with
the facade-level `updateProfile` from the auth context, and proves or
refutes the behavioural claims made about it.

Modelling conventions:
* SQL tables are lists of typed row structures, kept in rowid order;
  AUTOINCREMENT columns are modelled with an explicit per-table sequence
  counter (SQLite's `sqlite_sequence`).
* `INSERT OR REPLACE` is modelled as SQLite executes it: delete every row
  conflicting on a UNIQUE constraint, then append the fresh row.
* JavaScript's `JSON.parse` / `JSON.stringify` (external builtins) are
  modelled by an executable recursive-descent JSON codec covering the
  payloads the app stores (arrays, objects, strings, integers, booleans,
  null); JSON floats and `\u` escapes are outside the stored payloads and
  are not modelled.
* JS numbers that the app never computes with are modelled as `Int`.
-/

namespace PopcornTrack

/-! ### Characters used by the JSON codec -/

/-- The `{` character (written via its code point). -/
def lbrace : Char := Char.ofNat 123

/-- The `}` character (written via its code point). -/
def rbrace : Char := Char.ofNat 125

/-- The `"` character (written via its code point). -/
def dquote : Char := Char.ofNat 34

/-! ### JSON values and a parser modelling the JS builtin `JSON.parse` -/

/-- A JSON value as produced by `JSON.parse` (numbers restricted to the
integers that the app actually stores). -/
inductive Json where
  | null : Json
  | bool : Bool → Json
  | num : Int → Json
  | str : String → Json
  | arr : List Json → Json
  | obj : List (String × Json) → Json

/-- Drop leading JSON whitespace. -/
def skipWs : List Char → List Char
  | [] => []
  | c :: cs =>
    if c = ' ' ∨ c = '\t' ∨ c = '\n' ∨ c = '\r' then skipWs cs else c :: cs

/-- Decode a single-character JSON string escape. -/
def decodeEscape (c : Char) : Option Char :=
  if c = dquote then some dquote
  else if c = '\\' then some '\\'
  else if c = '/' then some '/'
  else if c = 'n' then some '\n'
  else if c = 't' then some '\t'
  else if c = 'r' then some '\r'
  else if c = 'b' then some (Char.ofNat 8)
  else if c = 'f' then some (Char.ofNat 12)
  else none

/-- Parse the body of a JSON string after its opening quote, returning the
decoded string and the remaining input. -/
def parseStringBody : List Char → Option (String × List Char)
  | [] => none
  | c :: cs =>
    if c = dquote then some ("", cs)
    else if c = '\\' then
      match cs with
      | [] => none
      | e :: cs2 =>
        match decodeEscape e, parseStringBody cs2 with
        | some ec, some (s, rest) => some (String.singleton ec ++ s, rest)
        | _, _ => none
    else
      match parseStringBody cs with
      | some (s, rest) => some (String.singleton c ++ s, rest)
      | none => none

/-- Consume a maximal run of decimal digits. -/
def takeDigits : List Char → List Char × List Char
  | [] => ([], [])
  | c :: cs =>
    if c.isDigit then
      let (ds, rest) := takeDigits cs
      (c :: ds, rest)
    else ([], c :: cs)

/-- Numeric value of a digit run. -/
def digitsToNat (ds : List Char) : Nat :=
  ds.foldl (fun acc c => 10 * acc + (c.toNat - '0'.toNat)) 0

/-- Parse a JSON integer (optional minus sign followed by digits). -/
def parseNumber : List Char → Option (Int × List Char)
  | '-' :: cs =>
    match takeDigits cs with
    | ([], _) => none
    | (ds, rest) => some (-(Int.ofNat (digitsToNat ds)), rest)
  | cs =>
    match takeDigits cs with
    | ([], _) => none
    | (ds, rest) => some (Int.ofNat (digitsToNat ds), rest)

/-- Consume an expected literal character sequence. -/
def dropLit : List Char → List Char → Option (List Char)
  | [], cs => some cs
  | l :: ls, c :: cs => if c = l then dropLit ls cs else none
  | _ :: _, [] => none

mutual

/-- Parse one JSON value (fueled recursive descent; the fuel is an upper
bound on nesting supplied as the input length, ample for every payload the
app stores). -/
def parseJsonVal : Nat → List Char → Option (Json × List Char)
  | 0, _ => none
  | fuel + 1, cs =>
    match skipWs cs with
    | [] => none
    | c :: rest =>
      if c = 'n' then (dropLit ['u', 'l', 'l'] rest).map (fun r => (Json.null, r))
      else if c = 't' then (dropLit ['r', 'u', 'e'] rest).map (fun r => (Json.bool true, r))
      else if c = 'f' then (dropLit ['a', 'l', 's', 'e'] rest).map (fun r => (Json.bool false, r))
      else if c = dquote then (parseStringBody rest).map (fun p => (Json.str p.1, p.2))
      else if c = '[' then
        match skipWs rest with
        | [] => none
        | c2 :: r2 =>
          if c2 = ']' then some (Json.arr [], r2)
          else
            match parseArrTail fuel (c2 :: r2) with
            | some (xs, r3) => some (Json.arr xs, r3)
            | none => none
      else if c = lbrace then
        match skipWs rest with
        | [] => none
        | c2 :: r2 =>
          if c2 = rbrace then some (Json.obj [], r2)
          else
            match parseObjTail fuel (c2 :: r2) with
            | some (ms, r3) => some (Json.obj ms, r3)
            | none => none
      else if c.isDigit ∨ c = '-' then
        match parseNumber (c :: rest) with
        | some (n, r2) => some (Json.num n, r2)
        | none => none
      else none

/-- Parse the elements of a non-empty JSON array (after the opening `[`). -/
def parseArrTail : Nat → List Char → Option (List Json × List Char)
  | 0, _ => none
  | fuel + 1, cs =>
    match parseJsonVal fuel cs with
    | none => none
    | some (v, rest) =>
      match skipWs rest with
      | [] => none
      | c :: r2 =>
        if c = ',' then
          match parseArrTail fuel r2 with
          | some (vs, r3) => some (v :: vs, r3)
          | none => none
        else if c = ']' then some ([v], r2)
        else none

/-- Parse the members of a non-empty JSON object (after the opening brace). -/
def parseObjTail : Nat → List Char → Option (List (String × Json) × List Char)
  | 0, _ => none
  | fuel + 1, cs =>
    match skipWs cs with
    | [] => none
    | c :: rest =>
      if c = dquote then
        match parseStringBody rest with
        | none => none
        | some (k, r2) =>
          match skipWs r2 with
          | [] => none
          | c2 :: r3 =>
            if c2 = ':' then
              match parseJsonVal fuel (skipWs r3) with
              | none => none
              | some (v, r4) =>
                match skipWs r4 with
                | [] => none
                | c3 :: r5 =>
                  if c3 = ',' then
                    match parseObjTail fuel r5 with
                    | some (ms, r6) => some ((k, v) :: ms, r6)
                    | none => none
                  else if c3 = rbrace then some ([(k, v)], r5)
                  else none
            else none
      else none

end

/-- `JSON.parse`: parse a complete JSON document, rejecting trailing
garbage; `none` models the builtin throwing a syntax error. -/
def jsonParse (s : String) : Option Json :=
  match parseJsonVal (s.length + 1) s.toList with
  | some (v, rest) => if skipWs rest = [] then some v else none
  | none => none

/-- `JSON.stringify` of an integer array (the shape stored for genre-id and
watched-episode columns). -/
def stringifyIntList (l : List Int) : String :=
  "[" ++ String.intercalate "," (l.map toString) ++ "]"

/-- A TMDB genre object. -/
structure Genre where
  id : Int
  name : String
deriving DecidableEq, Repr

/-- `JSON.stringify` of one genre object (names containing quotes or
backslashes do not occur in the stored payloads). -/
def stringifyGenre (g : Genre) : String :=
  String.singleton lbrace ++ "\"id\":" ++ toString g.id ++ ",\"name\":\"" ++ g.name
    ++ "\"" ++ String.singleton rbrace

/-- `JSON.stringify` of a genre-object array. -/
def stringifyGenres (l : List Genre) : String :=
  "[" ++ String.intercalate "," (l.map stringifyGenre) ++ "]"

/-! ### Domain types (the TypeScript interfaces the storage facade accepts) -/

/-- The `Movie` domain object handed to the persistence facade. -/
structure Movie where
  id : Int
  title : String
  overview : String
  poster_path : Option String
  backdrop_path : Option String
  release_date : String
  vote_average : Int
  genre_ids : List Int
  genres : Option (List Genre)
deriving DecidableEq, Repr

/-- The `TVShow` domain object handed to the persistence facade. -/
structure TVShow where
  id : Int
  name : String
  overview : String
  poster_path : Option String
  backdrop_path : Option String
  first_air_date : String
  vote_average : Int
  genre_ids : List Int
  genres : Option (List Genre)
  number_of_seasons : Option Int
  number_of_episodes : Option Int
deriving DecidableEq, Repr

/-- The `User` profile object; the `users` table stores exactly these
columns (plus a created-at default no operation ever reads). -/
structure User where
  id : String
  login : String
  avatar_url : String
  name : String
deriving DecidableEq, Repr

/-- The `WatchedMovie` domain object. -/
structure WatchedMovie where
  id : Int
  movie : Movie
  rating : Int
  watched_date : String
  user_id : String
deriving DecidableEq, Repr

/-- The `WatchedShow` domain object (`status` is one of the literal strings
"watching", "completed", "dropped"). -/
structure WatchedShow where
  id : Int
  «show» : TVShow
  rating : Int
  status : String
  watched_episodes : List Int
  user_id : String
  updated_date : String
deriving DecidableEq, Repr

/-- The discriminator of a watchlist item (`'movie' | 'tv'`). -/
inductive ItemType where
  | movie : ItemType
  | tv : ItemType
deriving DecidableEq, Repr

/-- The TEXT stored in the `item_type` column. -/
def ItemType.toDbText : ItemType → String
  | ItemType.movie => "movie"
  | ItemType.tv => "tv"

/-- The `WatchlistItem` domain object passed to `addToWatchlist`. -/
structure WatchlistItem where
  id : Int
  type : ItemType
  item_id : Int
  movie : Option Movie
  «show» : Option TVShow
  added_date : String
  user_id : String
deriving DecidableEq, Repr

/-! ### SQL values and table rows -/

/-- A dynamically-typed SQL value as bound to or read from a column. -/
inductive Value where
  | null : Value
  | int : Int → Value
  | text : String → Value
deriving DecidableEq, Repr

/-- A row of the `settings` table. -/
structure SettingsRow where
  key : String
  value : String
deriving DecidableEq, Repr

/-- A row of the `movies` cache table (JSON-array columns stored as TEXT,
nullable as in the schema). -/
structure MoviesRow where
  id : Int
  title : String
  overview : String
  poster_path : Option String
  backdrop_path : Option String
  release_date : String
  vote_average : Int
  genre_ids : Option String
  genres : Option String
deriving DecidableEq, Repr

/-- A row of the `tv_shows` cache table. -/
structure TvShowsRow where
  id : Int
  name : String
  overview : String
  poster_path : Option String
  backdrop_path : Option String
  first_air_date : String
  vote_average : Int
  genre_ids : Option String
  genres : Option String
  number_of_seasons : Option Int
  number_of_episodes : Option Int
deriving DecidableEq, Repr

/-- A row of the `watched_movies` table (id is the AUTOINCREMENT key). -/
structure WatchedMoviesRow where
  id : Int
  user_id : String
  movie_id : Int
  rating : Int
  watched_date : String
  notes : Option String
deriving DecidableEq, Repr

/-- A row of the `watched_shows` table. -/
structure WatchedShowsRow where
  id : Int
  user_id : String
  show_id : Int
  rating : Int
  status : String
  watched_episodes : Option String
  notes : Option String
  updated_at : String
deriving DecidableEq, Repr

/-- A row of the `watchlist` table. -/
structure WatchlistRow where
  id : Int
  user_id : String
  item_type : String
  item_id : Int
  added_date : String
  priority : Int
  notes : Option String
deriving DecidableEq, Repr

/-- The embedded relational store: the seven tables created by
`createTables`, in rowid order, plus the AUTOINCREMENT sequence counters. -/
structure DB where
  users : List User
  settings : List SettingsRow
  movies : List MoviesRow
  tv_shows : List TvShowsRow
  watched_movies : List WatchedMoviesRow
  watched_shows : List WatchedShowsRow
  watchlist : List WatchlistRow
  watchedMoviesSeq : Int
  watchedShowsSeq : Int
  watchlistSeq : Int
deriving DecidableEq, Repr

/-- A freshly created store with the schema applied and no rows. -/
def emptyDB : DB := ⟨[], [], [], [], [], [], [], 0, 0, 0⟩

/-! ### The store primitives (`database` module) -/

/-- Errors raised by the embedded SQL engine. -/
inductive SqlError where
  | malformedStatement : SqlError
deriving DecidableEq, Repr

/-- The runtime state the `database` module manages: the in-memory store
and the snapshot last persisted to browser-local storage (the
`popcorn_track_db` key; `none` when nothing was ever persisted). The
snapshot is modelled as the exported copy of the store. -/
structure Store where
  db : DB
  snapshot : Option DB
deriving DecidableEq, Repr

/-- `saveDatabase`: export the store and overwrite the persisted snapshot.
The body catches every export/persist failure itself and only logs it, so
a failure (modelled by `persistOk = false`) leaves the old snapshot in
place and signals nothing to the caller. -/
def saveDatabase (persistOk : Bool) (st : Store) : Store :=
  if persistOk then { st with snapshot := some st.db } else st

/-- The outcome `executeNonQuery` reports: a raised error (from prepare or
run) or success, together with the resulting runtime state. -/
structure NonQueryOutcome where
  err : Option SqlError
  store : Store
deriving DecidableEq, Repr

/-- `executeNonQuery`: prepare and run a mutating statement (binding its
params, which `stmt.run(params)` does), then `saveDatabase`. A prepare/run
failure is rethrown before `saveDatabase` is reached; a persist failure is
swallowed inside `saveDatabase`. The prepared statement is shallowly
embedded as its effect `stmt` on the store. -/
def executeNonQuery (stmt : DB → Except SqlError DB) (persistOk : Bool)
    (st : Store) : NonQueryOutcome :=
  match stmt st.db with
  | Except.error e => ⟨some e, st⟩
  | Except.ok d2 => ⟨none, saveDatabase persistOk { st with db := d2 }⟩

/-- The all-NULL parameter binding a prepared statement evaluates under
when nothing was bound to its placeholders. -/
def nullBinding : Nat → Value := fun _ => Value.null

/-- `executeQuery`: prepare a read statement and step it to completion.
The source never binds `params` to the prepared statement (`stmt.step()` is
called with no preceding `bind`), so every `?` placeholder evaluates as
NULL and `params` is dead. The prepared statement is shallowly embedded as
its row-sequence semantics `stmtEval` as a function of the binding
environment. -/
def executeQuery {ρ : Type} (stmtEval : (Nat → Value) → List ρ)
    (params : List Value) : List ρ :=
  stmtEval nullBinding

/-! ### Write operations of the `storage` facade -/

/-- SQL `=` between a TEXT column and a bound value, as a WHERE-clause
truth value: a NULL (unbound) comparand is never true. -/
def sqlEqText (s : String) (v : Value) : Bool :=
  match v with
  | Value.text t => s == t
  | _ => false

/-- SQL `=` between an INTEGER column and a bound value. -/
def sqlEqInt (n : Int) (v : Value) : Bool :=
  match v with
  | Value.int i => n == i
  | _ => false

/-- `storage.setUser`: `INSERT OR REPLACE INTO users (id, login,
avatar_url, name) VALUES (?, ?, ?, ?)` (replace on the primary key `id`). -/
def setUser (st : DB) (u : User) : DB :=
  { st with users := st.users.filter (fun r => r.id != u.id) ++ [u] }

/-- `storage.cacheMovie`: `INSERT OR REPLACE INTO movies ...`, JSON-encoding
the two array-valued fields (`movie.genre_ids || []`, `movie.genres || []`). -/
def cacheMovie (st : DB) (m : Movie) : DB :=
  let row : MoviesRow :=
    ⟨m.id, m.title, m.overview, m.poster_path, m.backdrop_path, m.release_date,
      m.vote_average, some (stringifyIntList m.genre_ids),
      some (stringifyGenres (m.genres.getD []))⟩
  { st with movies := st.movies.filter (fun r => r.id != m.id) ++ [row] }

/-- `storage.cacheTVShow`: `INSERT OR REPLACE INTO tv_shows ...`. -/
def cacheTVShow (st : DB) (s : TVShow) : DB :=
  let row : TvShowsRow :=
    ⟨s.id, s.name, s.overview, s.poster_path, s.backdrop_path, s.first_air_date,
      s.vote_average, some (stringifyIntList s.genre_ids),
      some (stringifyGenres (s.genres.getD [])), s.number_of_seasons,
      s.number_of_episodes⟩
  { st with tv_shows := st.tv_shows.filter (fun r => r.id != s.id) ++ [row] }

/-- The `UNIQUE(user_id, movie_id)` conflict target of `watched_movies`. -/
def wmKeyMatches (userId : String) (movieId : Int) (r : WatchedMoviesRow) : Bool :=
  r.user_id == userId && r.movie_id == movieId

/-- `storage.addWatchedMovie`: cache the movie, then `INSERT OR REPLACE
INTO watched_movies (user_id, movie_id, rating, watched_date)` — the
replace deletes any row conflicting on `UNIQUE(user_id, movie_id)` and
appends a fresh row with the next AUTOINCREMENT id (`notes` left NULL). -/
def addWatchedMovie (st : DB) (wm : WatchedMovie) : DB :=
  let st1 := cacheMovie st wm.movie
  let newId := st1.watchedMoviesSeq + 1
  let row : WatchedMoviesRow :=
    ⟨newId, wm.user_id, wm.movie.id, wm.rating, wm.watched_date, none⟩
  { st1 with
      watched_movies :=
        st1.watched_movies.filter (fun r => !(wmKeyMatches wm.user_id wm.movie.id r)) ++ [row],
      watchedMoviesSeq := newId }

/-- The `UNIQUE(user_id, show_id)` conflict target of `watched_shows`. -/
def wsKeyMatches (userId : String) (showId : Int) (r : WatchedShowsRow) : Bool :=
  r.user_id == userId && r.show_id == showId

/-- `storage.addWatchedShow`: cache the show, then `INSERT OR REPLACE INTO
watched_shows (user_id, show_id, rating, status, watched_episodes,
updated_at)` with the episode list JSON-encoded. -/
def addWatchedShow (st : DB) (ws : WatchedShow) : DB :=
  let st1 := cacheTVShow st ws.«show»
  let newId := st1.watchedShowsSeq + 1
  let row : WatchedShowsRow :=
    ⟨newId, ws.user_id, ws.«show».id, ws.rating, ws.status,
      some (stringifyIntList ws.watched_episodes), none, ws.updated_date⟩
  { st1 with
      watched_shows :=
        st1.watched_shows.filter (fun r => !(wsKeyMatches ws.user_id ws.«show».id r)) ++ [row],
      watchedShowsSeq := newId }

/-- The `UNIQUE(user_id, item_type, item_id)` conflict target of `watchlist`. -/
def wlKeyMatches (userId : String) (itemType : String) (itemId : Int)
    (r : WatchlistRow) : Bool :=
  r.user_id == userId && r.item_type == itemType && r.item_id == itemId

/-- `storage.addToWatchlist`: cache whichever media object is present, then
`INSERT OR REPLACE INTO watchlist (user_id, item_type, item_id, added_date)`
(`priority` takes its column default 0, `notes` NULL). -/
def addToWatchlist (st : DB) (item : WatchlistItem) : DB :=
  let st1 :=
    match item.movie with
    | some m => cacheMovie st m
    | none => st
  let st2 :=
    match item.«show» with
    | some s => cacheTVShow st1 s
    | none => st1
  let newId := st2.watchlistSeq + 1
  let row : WatchlistRow :=
    ⟨newId, item.user_id, item.type.toDbText, item.item_id, item.added_date, 0, none⟩
  { st2 with
      watchlist :=
        st2.watchlist.filter
          (fun r => !(wlKeyMatches item.user_id item.type.toDbText item.item_id r)) ++ [row],
      watchlistSeq := newId }

/-- `storage.deleteUser`: four bound DELETEs — the profile's watched
movies, watched shows and watchlist rows, then the profile row itself. -/
def deleteUser (st : DB) (userId : String) : DB :=
  { st with
      watched_movies := st.watched_movies.filter (fun r => r.user_id != userId),
      watched_shows := st.watched_shows.filter (fun r => r.user_id != userId),
      watchlist := st.watchlist.filter (fun r => r.user_id != userId),
      users := st.users.filter (fun r => r.id != userId) }

/-! ### Partial profile update (`storage.updateUser`, facade `updateProfile`) -/

/-- A column of the `users` table that a partial update may patch. -/
inductive UserField where
  | id : UserField
  | login : UserField
  | avatar_url : UserField
  | name : UserField
deriving DecidableEq, Repr

/-- Apply one `column = ?` assignment to a users row. -/
def applyUserUpdate (r : User) (fv : UserField × String) : User :=
  match fv.1 with
  | UserField.id => { r with id := fv.2 }
  | UserField.login => { r with login := fv.2 }
  | UserField.avatar_url => { r with avatar_url := fv.2 }
  | UserField.name => { r with name := fv.2 }

/-- The outcome of a facade mutation: a raised error or success, with the
resulting in-memory store. -/
structure ExecResult where
  err : Option SqlError
  db : DB
deriving DecidableEq, Repr

/-- `storage.updateUser`: builds `UPDATE users SET <k = ?, ...> WHERE id = ?`
from the provided fields. With an empty update set the generated SET clause
is empty, SQLite's prepare rejects the malformed statement, and the error
propagates with the store untouched; otherwise the UPDATE patches every row
matching the id (zero rows is a silent success). -/
def updateUser (st : DB) (userId : String) (updates : List (UserField × String)) :
    ExecResult :=
  if updates.isEmpty then ⟨some SqlError.malformedStatement, st⟩
  else
    ⟨none,
      { st with
          users := st.users.map
            (fun r => if r.id == userId then updates.foldl applyUserUpdate r else r) }⟩

/-- The slug derivation `name.toLowerCase().replace(/\s+/g, '_')`: fold a
character onto the slug, collapsing each whitespace run to one underscore. -/
def slugChar (c : Char) (acc : List Char) : List Char :=
  if c.isWhitespace then
    match acc with
    | '_' :: _ => acc
    | _ => '_' :: acc
  else c :: acc

/-- Lower-case a name and replace each maximal whitespace run by `_`. -/
def slugify (s : String) : String :=
  String.mk ((s.toLower.toList).foldr slugChar [])

/-- The auth context's `updateProfile`: look the profile id up in the
in-memory profile list; a missing id throws "Profile not found" before any
store call; otherwise merge the updates over the stored profile, re-derive
the login slug when a (truthy) name update is present, and persist the
merged profile through `storage.setUser`. -/
def updateProfile (st : DB) (profiles : List User) (profileId : String)
    (updates : List (UserField × String)) : Except String DB :=
  match profiles.find? (fun p => p.id == profileId) with
  | none => Except.error "Profile not found"
  | some p =>
    let merged := updates.foldl applyUserUpdate p
    let merged2 :=
      match updates.find? (fun fv => fv.1 == UserField.name) with
      | some (_, v) => if v = "" then merged else { merged with login := slugify v }
      | none => merged
    Except.ok (setUser st merged2)

/-! ### Read operations of the `storage` facade -/

/-- `x || '[]'`: the stored TEXT of a JSON-array column with the falsy
values (NULL and the empty string) defaulted to an empty-array document. -/
def jsOrEmptyArray (stored : Option String) : String :=
  match stored with
  | none => "[]"
  | some s => if s = "" then "[]" else s

/-- Decode one stored JSON-array column exactly as the reads do:
`JSON.parse(stored || '[]')`. A stored text `JSON.parse` cannot parse
raises (is not defaulted); an absent or empty stored value decodes to `[]`. -/
def decodeJsonField (stored : Option String) : Except String Json :=
  match jsonParse (jsOrEmptyArray stored) with
  | some j => Except.ok j
  | none => Except.error "SyntaxError: JSON parse failed"

/-- Insert into a descending-ordered list by a TEXT sort key (SQLite
`ORDER BY ... DESC` on a TEXT column compares by binary collation). -/
def insertDescBy {α : Type} (key : α → String) (x : α) : List α → List α
  | [] => [x]
  | y :: ys => if key y < key x then x :: y :: ys else y :: insertDescBy key x ys

/-- Sort by a TEXT key, descending. -/
def sortByDesc {α : Type} (key : α → String) (l : List α) : List α :=
  l.foldr (insertDescBy key) []

/-- `getCachedMovie`'s return shape: the movie row with its two JSON-array
columns decoded (`JSON.parse` leaves them as untyped JSON values). -/
structure MovieOut where
  id : Int
  title : String
  overview : String
  poster_path : Option String
  backdrop_path : Option String
  release_date : String
  vote_average : Int
  genre_ids : Json
  genres : Json

/-- The row mapping of `storage.getCachedMovie`: spread the row and decode
`genre_ids` then `genres`. -/
def decodeMovieRow (r : MoviesRow) : Except String MovieOut := do
  let gids ← decodeJsonField r.genre_ids
  let gs ← decodeJsonField r.genres
  Except.ok
    ⟨r.id, r.title, r.overview, r.poster_path, r.backdrop_path, r.release_date,
      r.vote_average, gids, gs⟩

/-- `storage.getCachedMovie`: `SELECT * FROM movies WHERE id = ?` through
`executeQuery` (whose placeholder is never bound), absent row mapped to an
explicit `none`. -/
def getCachedMovie (st : DB) (movieId : Int) : Except String (Option MovieOut) :=
  match executeQuery (fun env => st.movies.filter (fun m => sqlEqInt m.id (env 0)))
      [Value.int movieId] with
  | [] => Except.ok none
  | r :: _ => (decodeMovieRow r).map some

/-- `getWatchedShows`'s nested show shape. -/
structure TVShowOut where
  id : Int
  name : String
  overview : String
  poster_path : Option String
  backdrop_path : Option String
  first_air_date : String
  vote_average : Int
  genre_ids : Json
  genres : Json
  number_of_seasons : Option Int
  number_of_episodes : Option Int

/-- `getWatchedShows`'s item shape. Note `row.id` in the source is the
tv_shows id: `SELECT ws.*, s.*` makes the second `id` column overwrite the
first in the row object. -/
structure WatchedShowOut where
  id : Int
  rating : Int
  status : String
  watched_episodes : Json
  user_id : String
  updated_date : String
  «show» : TVShowOut

/-- The row mapping of `storage.getWatchedShows`: decode the watched
episode list, then the show's genre columns, in source evaluation order. -/
def mapWatchedShowRow (row : WatchedShowsRow × TvShowsRow) :
    Except String WatchedShowOut := do
  let eps ← decodeJsonField row.1.watched_episodes
  let gids ← decodeJsonField row.2.genre_ids
  let gs ← decodeJsonField row.2.genres
  Except.ok
    ⟨row.2.id, row.1.rating, row.1.status, eps, row.1.user_id, row.1.updated_at,
      ⟨row.2.id, row.2.name, row.2.overview, row.2.poster_path, row.2.backdrop_path,
        row.2.first_air_date, row.2.vote_average, gids, gs,
        row.2.number_of_seasons, row.2.number_of_episodes⟩⟩

/-- The prepared-statement semantics of the `getWatchedShows` SELECT:
filter `watched_shows` on `ws.user_id = ?` (placeholder 0), inner-join
`tv_shows` on `ws.show_id = s.id`, order by `ws.updated_at DESC`. -/
def watchedShowsJoinRows (st : DB) (env : Nat → Value) :
    List (WatchedShowsRow × TvShowsRow) :=
  sortByDesc (fun p => p.1.updated_at)
    ((st.watched_shows.filter (fun ws => sqlEqText ws.user_id (env 0))).filterMap
      (fun ws => (st.tv_shows.find? (fun s => s.id == ws.show_id)).map (fun s => (ws, s))))

/-- `storage.getWatchedShows`. -/
def getWatchedShows (st : DB) (userId : String) :
    Except String (List WatchedShowOut) :=
  (executeQuery (watchedShowsJoinRows st) [Value.text userId]).mapM mapWatchedShowRow

/-! ### Watchlist read path -/

/-- One row of the `getWatchlist` SELECT: the watchlist columns plus the
aliased movie and show columns from the two LEFT JOINs, each NULL when the
corresponding join found no cache row. -/
structure WatchlistJoinRow where
  id : Int
  user_id : String
  item_type : String
  item_id : Int
  added_date : String
  priority : Int
  notes : Option String
  movie_title : Value
  movie_overview : Value
  movie_poster : Value
  movie_backdrop : Value
  release_date : Value
  movie_rating : Value
  movie_genre_ids : Option String
  movie_genres : Option String
  show_name : Value
  show_overview : Value
  show_poster : Value
  show_backdrop : Value
  first_air_date : Value
  show_rating : Value
  show_genre_ids : Option String
  show_genres : Option String
  number_of_seasons : Value
  number_of_episodes : Value

/-- A nullable TEXT column as a `Value`. -/
def optText (s : Option String) : Value :=
  match s with
  | some t => Value.text t
  | none => Value.null

/-- A nullable INTEGER column as a `Value`. -/
def optInt (n : Option Int) : Value :=
  match n with
  | some i => Value.int i
  | none => Value.null

/-- Assemble the SELECT row for a watchlist row and the two optional
LEFT-JOIN partners. -/
def watchlistJoinRow (w : WatchlistRow) (m : Option MoviesRow)
    (s : Option TvShowsRow) : WatchlistJoinRow :=
  ⟨w.id, w.user_id, w.item_type, w.item_id, w.added_date, w.priority, w.notes,
    (match m with | some mr => Value.text mr.title | none => Value.null),
    (match m with | some mr => Value.text mr.overview | none => Value.null),
    (match m with | some mr => optText mr.poster_path | none => Value.null),
    (match m with | some mr => optText mr.backdrop_path | none => Value.null),
    (match m with | some mr => Value.text mr.release_date | none => Value.null),
    (match m with | some mr => Value.int mr.vote_average | none => Value.null),
    (match m with | some mr => mr.genre_ids | none => none),
    (match m with | some mr => mr.genres | none => none),
    (match s with | some sr => Value.text sr.name | none => Value.null),
    (match s with | some sr => Value.text sr.overview | none => Value.null),
    (match s with | some sr => optText sr.poster_path | none => Value.null),
    (match s with | some sr => optText sr.backdrop_path | none => Value.null),
    (match s with | some sr => Value.text sr.first_air_date | none => Value.null),
    (match s with | some sr => Value.int sr.vote_average | none => Value.null),
    (match s with | some sr => sr.genre_ids | none => none),
    (match s with | some sr => sr.genres | none => none),
    (match s with | some sr => optInt sr.number_of_seasons | none => Value.null),
    (match s with | some sr => optInt sr.number_of_episodes | none => Value.null)⟩

/-- The nested movie object `getWatchlist` builds for a type-"movie" row
(fields come from nullable joined columns, so they stay dynamic values). -/
structure WatchlistMovieOut where
  id : Int
  title : Value
  overview : Value
  poster_path : Value
  backdrop_path : Value
  release_date : Value
  vote_average : Value
  genre_ids : Json
  genres : Json

/-- The nested show object `getWatchlist` builds for a type-"tv" row. -/
structure WatchlistShowOut where
  id : Int
  name : Value
  overview : Value
  poster_path : Value
  backdrop_path : Value
  first_air_date : Value
  vote_average : Value
  genre_ids : Json
  genres : Json
  number_of_seasons : Value
  number_of_episodes : Value

/-- The item shape `getWatchlist` returns. -/
structure WatchlistItemOut where
  id : Int
  type : String
  item_id : Int
  added_date : String
  user_id : String
  movie : Option WatchlistMovieOut
  «show» : Option WatchlistShowOut

/-- The row mapping of `storage.getWatchlist`: the movie object is built
(and its JSON columns parsed) only when `item_type === 'movie'`, the show
object only when `item_type === 'tv'`; either conditional otherwise yields
`undefined`. -/
def mapWatchlistRow (row : WatchlistJoinRow) : Except String WatchlistItemOut := do
  let movieField ←
    if row.item_type == "movie" then do
      let gids ← decodeJsonField row.movie_genre_ids
      let gs ← decodeJsonField row.movie_genres
      Except.ok (some
        (⟨row.item_id, row.movie_title, row.movie_overview, row.movie_poster,
          row.movie_backdrop, row.release_date, row.movie_rating, gids, gs⟩ :
          WatchlistMovieOut))
    else Except.ok none
  let showField ←
    if row.item_type == "tv" then do
      let gids ← decodeJsonField row.show_genre_ids
      let gs ← decodeJsonField row.show_genres
      Except.ok (some
        (⟨row.item_id, row.show_name, row.show_overview, row.show_poster,
          row.show_backdrop, row.first_air_date, row.show_rating, gids, gs,
          row.number_of_seasons, row.number_of_episodes⟩ : WatchlistShowOut))
    else Except.ok none
  Except.ok
    ⟨row.id, row.item_type, row.item_id, row.added_date, row.user_id,
      movieField, showField⟩

/-- The prepared-statement semantics of the `getWatchlist` SELECT: filter
`watchlist` on `w.user_id = ?` (placeholder 0), LEFT JOIN each cache table
under its type guard, order by `w.added_date DESC`. -/
def watchlistJoinRows (st : DB) (env : Nat → Value) : List WatchlistJoinRow :=
  sortByDesc (fun r => r.added_date)
    ((st.watchlist.filter (fun w => sqlEqText w.user_id (env 0))).map
      (fun w =>
        watchlistJoinRow w
          (st.movies.find? (fun m => w.item_type == "movie" && m.id == w.item_id))
          (st.tv_shows.find? (fun s => w.item_type == "tv" && s.id == w.item_id))))

/-- `storage.getWatchlist`. -/
def getWatchlist (st : DB) (userId : String) :
    Except String (List WatchlistItemOut) :=
  (executeQuery (watchlistJoinRows st) [Value.text userId]).mapM mapWatchlistRow

/-! ### Concrete inputs used by evaluation theorems and witnesses -/

/-- The sole profile of the spec's concrete scenario. -/
def alexProfile : User :=
  ⟨"profile_1", "alex", "https://ui-avatars.com/api/?name=Alex", "Alex"⟩

/-- A store holding only the profile Alex. -/
def dbWithAlex : DB :=
  { emptyDB with users := [alexProfile] }

/-- Movie with external id 603 from the spec's concrete scenario. -/
def matrixMovie : Movie :=
  ⟨603, "The Matrix", "A computer hacker learns about the true nature of reality.",
    some "/matrix.jpg", some "/matrix-bd.jpg", "1999-03-31", 8, [28, 878], none⟩

/-- Alex's watchlist entry for movie 603. -/
def alexWatchlistItem : WatchlistItem :=
  ⟨0, ItemType.movie, 603, some matrixMovie, none, "2024-01-01 10:00:00", "profile_1"⟩

/-- A show with a three-element watched-episode list. -/
def sampleShow : TVShow :=
  ⟨1399, "Game of Thrones", "Nine noble families fight for control.",
    some "/got.jpg", some "/got-bd.jpg", "2011-04-17", 9, [18, 10765], none, some 8, some 73⟩

/-- Alex's watched record for `sampleShow`, episodes `[1, 2, 3]`. -/
def alexWatchedShow : WatchedShow :=
  ⟨0, sampleShow, 9, "watching", [1, 2, 3], "profile_1", "2024-02-02 20:00:00"⟩

/-- A second watched-movie record for the replace test (first call). -/
def wmFirstCall : WatchedMovie :=
  ⟨0, matrixMovie, 3, "2024-03-01 09:00:00", "profile_1"⟩

/-- The second call's record for the same (profile, movie) pair with
different rating and date. -/
def wmSecondCall : WatchedMovie :=
  ⟨0, matrixMovie, 5, "2024-03-02 21:30:00", "profile_1"⟩

/-- A movies cache row whose stored genre-id column is corrupted text. -/
def corruptMoviesRow : MoviesRow :=
  ⟨603, "The Matrix", "overview", none, none, "1999-03-31", 8, some "oops", some "[]"⟩

/-- A watched-shows join row whose stored episode column is corrupted text. -/
def corruptShowsPair : WatchedShowsRow × TvShowsRow :=
  (⟨1, "profile_1", 1399, 9, "watching", some "oops", none, "2024-02-02 20:00:00"⟩,
    ⟨1399, "Game of Thrones", "overview", none, none, "2011-04-17", 9, some "[]",
      some "[]", some 8, some 73⟩)

/-- A concrete movie-type join row as the `getWatchlist` SELECT produces
it: watchlist row 1 for movie 603 with its cached movies row joined. -/
def sampleJoinRow : WatchlistJoinRow :=
  watchlistJoinRow ⟨1, "profile_1", "movie", 603, "2024-01-01 10:00:00", 0, none⟩
    (some ⟨603, "The Matrix", "overview", none, none, "1999-03-31", 8,
      some "[]", some "[]"⟩)
    none

/-- The item `mapWatchlistRow` builds from `sampleJoinRow`. -/
def sampleItemOut : WatchlistItemOut :=
  ⟨1, "movie", 603, "2024-01-01 10:00:00", "profile_1",
    some ⟨603, Value.text "The Matrix", Value.text "overview", Value.null,
      Value.null, Value.text "1999-03-31", Value.int 8, Json.arr [], Json.arr []⟩,
    none⟩

/-- The prepared `DELETE FROM users WHERE user_id = ?` effect bound to
Alex's profile id, as a statement routed through `executeNonQuery`. -/
def wipeAlexStmt : DB → Except SqlError DB :=
  fun d => Except.ok (deleteUser d "profile_1")

/-- A store with one profile and a stale persisted snapshot. -/
def storeWithAlex : Store :=
  ⟨dbWithAlex, some emptyDB⟩

/-! ### Claim theorems -/

/-- C1: in the spec's concrete scenario — sole profile Alex, movie 603
added via `addToWatchlist` — `getWatchlist` for Alex's profile id is
claimed to return exactly one item of type "movie" with item_id 603. The
code instead returns no items: `executeQuery` never binds the user-id
parameter, so the `WHERE w.user_id = ?` filter compares against NULL and
admits no row. This theorem evaluates the embedded code at that input. -/
theorem getWatchlist_after_add_returns_no_items :
    getWatchlist (addToWatchlist dbWithAlex alexWatchlistItem) "profile_1" =
      Except.ok [] := rfl

/-- C2: after `addWatchedShow` writes a show with watched-episode list
`[1, 2, 3]`, `getWatchedShows` for the writer's profile id is claimed to
yield that record with the same list. The code instead returns no records,
because the read primitive leaves the user-id placeholder unbound. This
theorem evaluates the embedded code at that input. -/
theorem getWatchedShows_after_add_returns_no_records :
    getWatchedShows (addWatchedShow dbWithAlex alexWatchedShow) "profile_1" =
      Except.ok [] := rfl

/-- C3: for every read statement, store state and any two parameter lists,
`executeQuery` returns the same rows — the read primitive never binds its
`params` argument, so every placeholder evaluates as NULL and the result is
independent of the parameters passed. -/
theorem executeQuery_ignores_params {ρ : Type}
    (stmtEval : (Nat → Value) → List ρ) (p1 p2 : List Value) :
    executeQuery stmtEval p1 = executeQuery stmtEval p2 := rfl

/-- C9: `updateUser` with an empty update set builds the malformed
statement `UPDATE users SET  WHERE id = ?`, which fails at prepare; the
call reports the error and the store — in particular the users table — is
exactly the input store. -/
theorem updateUser_empty_update_set_fails (st : DB) (userId : String) :
    updateUser st userId [] = ⟨some SqlError.malformedStatement, st⟩ := rfl

/-- C10: a mutating statement that itself runs successfully resolves with
no error through `executeNonQuery` even when persisting the snapshot fails
(`persistOk = false`): `saveDatabase` catches its own export/persist
errors. The store reflects the write while the persisted snapshot is left
as it was — the reported success does not imply persistence. -/
theorem executeNonQuery_succeeds_despite_persist_failure
    (stmt : DB → Except SqlError DB) (st : Store) (d2 : DB)
    (h : stmt st.db = Except.ok d2) :
    (executeNonQuery stmt false st).err = none
    ∧ (executeNonQuery stmt false st).store.db = d2
    ∧ (executeNonQuery stmt false st).store.snapshot = st.snapshot := by
  simp [executeNonQuery, h, saveDatabase]

/-- Witness for C10: the users-wipe DELETE on a store with one profile and
a stale empty snapshot, with persistence failing. -/
theorem executeNonQuery_persist_failure_witness :
    (wipeAlexStmt storeWithAlex.db = Except.ok (deleteUser dbWithAlex "profile_1"))
    ∧ ((executeNonQuery wipeAlexStmt false storeWithAlex).err = none
        ∧ (executeNonQuery wipeAlexStmt false storeWithAlex).store.db
          = deleteUser dbWithAlex "profile_1"
        ∧ (executeNonQuery wipeAlexStmt false storeWithAlex).store.snapshot
          = storeWithAlex.snapshot) :=
  ⟨rfl, executeNonQuery_succeeds_despite_persist_failure wipeAlexStmt storeWithAlex
    (deleteUser dbWithAlex "profile_1") rfl⟩

/-- C5: `deleteUser p` removes exactly the watched_movies, watched_shows
and watchlist rows whose user_id is p and the users row with id p, leaving
every row of another profile and the whole movies, tv_shows and settings
tables unchanged. -/
theorem deleteUser_cascade_and_frame (st : DB) (p : String) :
    ((deleteUser st p).movies = st.movies
      ∧ (deleteUser st p).tv_shows = st.tv_shows
      ∧ (deleteUser st p).settings = st.settings)
    ∧ (∀ r : WatchedMoviesRow,
        r ∈ (deleteUser st p).watched_movies ↔ r ∈ st.watched_movies ∧ r.user_id ≠ p)
    ∧ (∀ r : WatchedShowsRow,
        r ∈ (deleteUser st p).watched_shows ↔ r ∈ st.watched_shows ∧ r.user_id ≠ p)
    ∧ (∀ r : WatchlistRow,
        r ∈ (deleteUser st p).watchlist ↔ r ∈ st.watchlist ∧ r.user_id ≠ p)
    ∧ (∀ r : User, r ∈ (deleteUser st p).users ↔ r ∈ st.users ∧ r.id ≠ p) := by
  refine ⟨⟨rfl, rfl, rfl⟩, ?_, ?_, ?_, ?_⟩ <;> intro r <;>
    simp [deleteUser, List.mem_filter, bne_iff_ne]

/-- Filtering a key out and then filtering for it yields nothing. -/
theorem filter_not_key_filter_key {α : Type} (k : α → Bool) (l : List α) :
    (l.filter (fun r => !(k r))).filter k = [] := by
  induction l with
  | nil => rfl
  | cons a t ih =>
    by_cases h : k a
    · simp [List.filter_cons, h, ih]
    · simp [List.filter_cons, h, ih]

/-- Filtering a key out twice is the same as once. -/
theorem filter_not_key_idem {α : Type} (k : α → Bool) (l : List α) :
    (l.filter (fun r => !(k r))).filter (fun r => !(k r))
      = l.filter (fun r => !(k r)) := by
  induction l with
  | nil => rfl
  | cons a t ih =>
    by_cases h : k a
    · simp [List.filter_cons, h, ih]
    · simp [List.filter_cons, h, ih]

/-- C4: adding a watched movie twice for the same (profile, movie) pair
leaves exactly one `watched_movies` row for that pair — the second call's
row, carrying the second call's rating and watched date (replace, not
duplicate, per `INSERT OR REPLACE` and `UNIQUE(user_id, movie_id)`). -/
theorem addWatchedMovie_twice_replaces (st : DB) (m1 m2 : WatchedMovie)
    (hu : m1.user_id = m2.user_id) (hm : m1.movie.id = m2.movie.id) :
    ((addWatchedMovie (addWatchedMovie st m1) m2).watched_movies).filter
        (wmKeyMatches m2.user_id m2.movie.id)
      = [⟨(addWatchedMovie (addWatchedMovie st m1) m2).watchedMoviesSeq,
          m2.user_id, m2.movie.id, m2.rating, m2.watched_date, none⟩] := by
  simp only [addWatchedMovie, cacheMovie, hu, hm]
  have hdead : ∀ a : WatchedMoviesRow,
      (a.user_id == m2.user_id && a.movie_id == m2.movie.id &&
        (!(a.user_id == m2.user_id) || !(a.movie_id == m2.movie.id))) = false := by
    intro a
    by_cases h1 : a.user_id == m2.user_id <;> by_cases h2 : a.movie_id == m2.movie.id <;>
      simp [h1, h2]
  simp [List.filter_append, filter_not_key_filter_key, filter_not_key_idem,
    wmKeyMatches, hdead]

/-- Witness for C4: the two concrete calls for (profile_1, movie 603) on an
empty store; the surviving row carries rating 5 and the second date. -/
theorem addWatchedMovie_twice_replaces_witness :
    ((addWatchedMovie (addWatchedMovie emptyDB wmFirstCall) wmSecondCall).watched_movies).filter
        (wmKeyMatches wmSecondCall.user_id wmSecondCall.movie.id)
      = [⟨(addWatchedMovie (addWatchedMovie emptyDB wmFirstCall) wmSecondCall).watchedMoviesSeq,
          wmSecondCall.user_id, wmSecondCall.movie.id,
          wmSecondCall.rating, wmSecondCall.watched_date, none⟩] :=
  addWatchedMovie_twice_replaces emptyDB wmFirstCall wmSecondCall rfl rfl

/-- C6: a watchlist row of type "movie" maps to an item whose movie field
is populated and whose show field is absent; a row of type "tv" maps the
other way round; for no mapped item are both fields populated or both
absent. (The row mapping is the `results.map` body of `getWatchlist`;
rows carry one of these two discriminators, the only values
`addToWatchlist` can store.) -/
theorem mapWatchlistRow_exactly_one_side (r : WatchlistJoinRow)
    (it : WatchlistItemOut)
    (htype : r.item_type = "movie" ∨ r.item_type = "tv")
    (h : mapWatchlistRow r = Except.ok it) :
    (it.type = "movie" → it.movie.isSome = true ∧ it.«show» = none)
    ∧ (it.type = "tv" → it.«show».isSome = true ∧ it.movie = none)
    ∧ (it.movie.isSome = true ↔ it.«show».isSome = false) := by
  rcases htype with ht | ht
  · cases hg : decodeJsonField r.movie_genre_ids with
    | error e =>
      rw [mapWatchlistRow] at h
      simp [ht, hg, Except.instMonad, Except.bind] at h
    | ok gids =>
      cases hg2 : decodeJsonField r.movie_genres with
      | error e =>
        rw [mapWatchlistRow] at h
        simp [ht, hg, hg2, Except.instMonad, Except.bind] at h
      | ok gs =>
        rw [mapWatchlistRow] at h
        simp [ht, hg, hg2, Except.instMonad, Except.bind] at h
        subst h
        simp [ht]
  · cases hg : decodeJsonField r.show_genre_ids with
    | error e =>
      rw [mapWatchlistRow] at h
      simp [ht, hg, Except.instMonad, Except.bind] at h
    | ok gids =>
      cases hg2 : decodeJsonField r.show_genres with
      | error e =>
        rw [mapWatchlistRow] at h
        simp [ht, hg, hg2, Except.instMonad, Except.bind] at h
      | ok gs =>
        rw [mapWatchlistRow] at h
        simp [ht, hg, hg2, Except.instMonad, Except.bind] at h
        subst h
        simp [ht]

/-- Witness for C6: the concrete movie-type join row maps to an item with
the movie field populated and the show field absent. -/
theorem mapWatchlistRow_exactly_one_side_witness :
    (sampleJoinRow.item_type = "movie" ∨ sampleJoinRow.item_type = "tv")
    ∧ mapWatchlistRow sampleJoinRow = Except.ok sampleItemOut
    ∧ ((sampleItemOut.type = "movie" →
          sampleItemOut.movie.isSome = true ∧ sampleItemOut.«show» = none)
        ∧ (sampleItemOut.type = "tv" →
            sampleItemOut.«show».isSome = true ∧ sampleItemOut.movie = none)
        ∧ (sampleItemOut.movie.isSome = true ↔ sampleItemOut.«show».isSome = false)) :=
  ⟨Or.inl rfl, rfl,
    mapWatchlistRow_exactly_one_side sampleJoinRow sampleItemOut (Or.inl rfl) rfl⟩

/-- C7: a stored JSON-array column that `JSON.parse` cannot parse makes the
decode — and with it the reading operation's row mapping — fail with a
parse error rather than being defaulted to an empty array, while an absent
(NULL) or empty stored value decodes to the empty array. The shared decode
is exercised through `getCachedMovie`'s row mapping (genre columns) and
`getWatchedShows`'s row mapping (watched-episode column). -/
theorem json_array_columns_decode (s : String) (hbad : jsonParse s = none)
    (hne : s ≠ "") (r : MoviesRow) (hr : r.genre_ids = some s)
    (w : WatchedShowsRow × TvShowsRow) (hw : w.1.watched_episodes = some s) :
    decodeJsonField (some s) = Except.error "SyntaxError: JSON parse failed"
    ∧ decodeJsonField none = Except.ok (Json.arr [])
    ∧ decodeJsonField (some "") = Except.ok (Json.arr [])
    ∧ decodeMovieRow r = Except.error "SyntaxError: JSON parse failed"
    ∧ mapWatchedShowRow w = Except.error "SyntaxError: JSON parse failed" := by
  have hdec : decodeJsonField (some s) = Except.error "SyntaxError: JSON parse failed" := by
    simp [decodeJsonField, jsOrEmptyArray, hne, hbad]
  refine ⟨hdec, rfl, rfl, ?_, ?_⟩
  · rw [decodeMovieRow, hr]
    simp [hdec, Except.instMonad, Except.bind]
  · rw [mapWatchedShowRow, hw]
    simp [hdec, Except.instMonad, Except.bind]

/-- Witness for C7: the corrupted stored text "oops". -/
theorem json_array_columns_decode_witness :
    decodeJsonField (some "oops") = Except.error "SyntaxError: JSON parse failed"
    ∧ decodeJsonField none = Except.ok (Json.arr [])
    ∧ decodeJsonField (some "") = Except.ok (Json.arr [])
    ∧ decodeMovieRow corruptMoviesRow = Except.error "SyntaxError: JSON parse failed"
    ∧ mapWatchedShowRow corruptShowsPair = Except.error "SyntaxError: JSON parse failed" :=
  json_array_columns_decode "oops" rfl (by decide) corruptMoviesRow rfl
    corruptShowsPair rfl

/-- C8 counterexample: `storage.updateUser` called with a non-empty update
set for an id absent from the users table does NOT reject — the UPDATE
matches zero rows and reports success (and creates no row), refuting the
claim that the update operation fails with an error. -/
theorem updateUser_missing_id_does_not_reject :
    (updateUser emptyDB "ghost" [(UserField.name, "Neo")]).err = none
    ∧ (updateUser emptyDB "ghost" [(UserField.name, "Neo")]).db.users = [] :=
  ⟨rfl, rfl⟩

/-- An UPDATE whose id matches no row patches nothing. -/
theorem map_patch_of_absent (u : String) (ups : List (UserField × String))
    (l : List User) (h : ∀ r ∈ l, r.id ≠ u) :
    l.map (fun r => if r.id = u then ups.foldl applyUserUpdate r else r) = l := by
  induction l with
  | nil => rfl
  | cons a t ih =>
    have ha : a.id ≠ u := h a (List.mem_cons_self a t)
    have ht := ih (fun r hr => h r (List.mem_cons_of_mem a hr))
    simp [List.map_cons, ha, ht]

/-- C8 (amended): updating a profile id that is absent — from the users
table for `storage.updateUser`, from the in-memory profile list for the
facade-level `updateProfile` — never creates a users row; `updateProfile`
rejects with "Profile not found" before any store write, while
`storage.updateUser` succeeds silently, leaving the users table unchanged
(so still without a row for that id). -/
theorem update_of_missing_profile (st : DB) (u : String)
    (updates : List (UserField × String)) (profiles : List User)
    (habs : ∀ r ∈ st.users, r.id ≠ u) (hne : updates ≠ [])
    (hprof : ∀ q ∈ profiles, q.id ≠ u) :
    (updateUser st u updates).err = none
    ∧ (updateUser st u updates).db.users = st.users
    ∧ updateProfile st profiles u updates = Except.error "Profile not found" := by
  have hfind : profiles.find? (fun p => p.id == u) = none := by
    apply List.find?_eq_none.mpr
    intro q hq
    simpa using hprof q hq
  refine ⟨?_, ?_, ?_⟩
  · simp [updateUser, hne]
  · simp [updateUser, hne, map_patch_of_absent u updates st.users habs]
  · simp [updateProfile, hfind]

/-- Witness for C8's amended claim: id "ghost" against an empty store and
an empty profile list, patching the name field. -/
theorem update_of_missing_profile_witness :
    (updateUser emptyDB "ghost" [(UserField.name, "Neo")]).err = none
    ∧ (updateUser emptyDB "ghost" [(UserField.name, "Neo")]).db.users = emptyDB.users
    ∧ updateProfile emptyDB [] "ghost" [(UserField.name, "Neo")]
      = Except.error "Profile not found" :=
  update_of_missing_profile emptyDB "ghost" [(UserField.name, "Neo")] []
    (by simp [emptyDB]) (by simp) (by simp)

end PopcornTrack
